import Mathlib

set_option maxRecDepth 40000

/-!
Shallow embedding of the `@cantabile/date-helper` library (src/index.ts,
src/utils.ts, src/constants.ts, src/error.ts), together with a model of the
host runtime's date primitive (an ECMA-262 `Date`), over exact integer
arithmetic.

Instants are epoch milliseconds (`Int`).  The host's local time zone is an
explicit parameter `tz` given in milliseconds east of UTC, so that local
time is `ms + tz`; a fixed-offset zone is the granularity the library
itself assumes.  Strings are Lean `String`s; JavaScript `number | string`
values are `JSVal`; a failed numeric coercion (`NaN`) is `Option.none`.
-/

/-! ### Model of the host's proleptic-Gregorian calendar -/

/-- Start day, inside one 400-year era of the March-based shifted calendar,
of shifted year `i`: 365 days per year plus the leap days among shifted
years `0 .. i-1`.  Part of the model of the host's date decomposition. -/
def yearStartInEra (i : Int) : Int := 365 * i + i / 4 - i / 100

/-- Largest shifted-year index `k ≤ n` with `yearStartInEra k ≤ doe`
(and `0` when none): the host's year-from-time characterisation (ECMA-262
defines the year of an instant as the largest year starting no later than
it), restricted to a single 400-year era. -/
def yoeSearch (doe : Int) : Nat → Nat
  | 0 => 0
  | n + 1 => if yearStartInEra ((n : Int) + 1) ≤ doe then n + 1 else yoeSearch doe n

/-- Civil (proleptic-Gregorian) date `(year, month 1-12, day 1-31)` of epoch
day `z`: models the host's year/month/day-from-time decomposition. -/
def civilFromDays (z : Int) : Int × Int × Int :=
  let z2 := z + 719468
  let era := z2 / 146097
  let doe := z2 - era * 146097
  let yoe : Int := yoeSearch doe 399
  let doy := doe - yearStartInEra yoe
  let mp := (5 * doy + 2) / 153
  let d := doy - (153 * mp + 2) / 5 + 1
  let m := if mp < 10 then mp + 3 else mp - 9
  (yoe + era * 400 + (if m ≤ 2 then 1 else 0), m, d)

/-- Epoch day of the civil date `(y, m, d)` with month `1..12`: the core of
the host's `MakeDay` (proleptic Gregorian, era arithmetic). -/
def daysFromCivil (y m d : Int) : Int :=
  let y2 := if m ≤ 2 then y - 1 else y
  let era := y2 / 400
  let yoe := y2 - era * 400
  let mp := (m + 9) % 12
  let doy := (153 * mp + 2) / 5 + d - 1
  era * 146097 + (yearStartInEra yoe + doy) - 719468

/-- Host `MakeDay(y, m0, dt)` for a 0-based month `m0` and arbitrary
integer arguments: month overflow rolls the year, day overflow rolls the
month/year by plain day addition. -/
def makeDay (y m0 dt : Int) : Int :=
  daysFromCivil (y + m0 / 12) (m0 % 12 + 1) 1 + dt - 1

/-- Epoch milliseconds produced by the host's `new Date(y, m0, d, h, mi)`
local-time constructor: the legacy two-digit-year rule (`0 ≤ y ≤ 99` is
read as `1900 + y`), then `MakeDay`/`MakeTime`, then conversion of local
time to UTC by subtracting `tz`. -/
def newDateLocal (tz y m0 d h mi : Int) : Int :=
  (makeDay (if 0 ≤ y ∧ y ≤ 99 then 1900 + y else y) m0 d) * 86400000
    + h * 3600000 + mi * 60000 - tz

/-- Local civil date and time, the six local getter fields of a host date
object (month 1-based here; the host's `getMonth()` is this minus 1). -/
structure CivilDT where
  year : Int
  month : Int
  day : Int
  hour : Int
  minute : Int
  second : Int
deriving DecidableEq

/-- Local civil decomposition of epoch instant `ms` in zone `tz`: models
the host's `getFullYear` / `getMonth` / `getDate` / `getHours` /
`getMinutes` / `getSeconds` (floor division throughout, per ECMA-262). -/
def localCivil (tz ms : Int) : CivilDT :=
  let t := ms + tz
  let cd := civilFromDays (t / 86400000)
  { year := cd.1, month := cd.2.1, day := cd.2.2
    hour := (t / 3600000) % 24
    minute := (t / 60000) % 60
    second := (t / 1000) % 60 }

/-- Result of the host's `setHours(h, mi, s, milli)` on a date holding
`ms`, in zone `tz`: keeps the local day, replaces the local time parts. -/
def setHoursLocalMs (tz ms h mi s milli : Int) : Int :=
  ((ms + tz) / 86400000) * 86400000 + h * 3600000 + mi * 60000 + s * 1000 + milli - tz

/-! ### Model of JavaScript values and coercions -/

/-- JavaScript `number | string` value; numbers are restricted to the exact
integers the library manipulates (`NaN` arises only as a failed coercion,
represented by `Option.none` on the result side). -/
inductive JSVal where
  | num (n : Int)
  | str (s : String)
deriving DecidableEq

/-- Template-literal rendering of a value (integral numbers print with no
decimal point, as in the host). -/
def jsValToString : JSVal → String
  | .num n => toString n
  | .str s => s

/-- Value of an all-decimal-digit character list (`none` when a non-digit
occurs; the empty list gives `some 0` and is guarded by the callers). -/
def digitsVal (cs : List Char) : Option Nat :=
  cs.foldl
    (fun acc c => acc.bind fun n => if c.isDigit then some (n * 10 + (c.toNat - 48)) else none)
    (some 0)

/-- Whitespace for the host's string-to-number trimming. -/
def isJSSpace (c : Char) : Bool := c == ' ' || c == '\t' || c == '\n' || c == '\r'

/-- Trim on a character list (both ends). -/
def jsTrim (cs : List Char) : List Char :=
  ((cs.dropWhile isJSSpace).reverse.dropWhile isJSSpace).reverse

/-- Host numeric coercion of a string, modelled on the optional-sign
decimal-integer forms the library feeds it: a blank string coerces to `0`,
`[+-]? digits` to its value, and anything else (fractions, exponents, hex,
stray characters) to `NaN` (`none`). -/
def jsStringToNum (s : String) : Option Int :=
  match jsTrim s.data with
  | [] => some 0
  | '-' :: cs => if cs.isEmpty then none else (digitsVal cs).map fun n => -(n : Int)
  | '+' :: cs => if cs.isEmpty then none else (digitsVal cs).map fun n => (n : Int)
  | cs => (digitsVal cs).map fun n => (n : Int)

/-- Host numeric coercion of a `number | string` value (`none` is `NaN`). -/
def jsToNum : JSVal → Option Int
  | .num n => some n
  | .str s => jsStringToNum s

/-- Numeric coercion of a possibly-undefined string: coercing `undefined`
gives `NaN`. -/
def jsOptToNum : Option String → Option Int
  | none => none
  | some s => jsStringToNum s

/-- Host `String.prototype.split` with a single-character separator, on
character lists. -/
def splitCharList (sep : Char) : List Char → List (List Char)
  | [] => [[]]
  | c :: cs =>
    match splitCharList sep cs with
    | [] => [[]]
    | h :: t => if c = sep then [] :: h :: t else (c :: h) :: t

/-- Host `split` on strings. -/
def jsSplit (s : String) (sep : Char) : List String :=
  (splitCharList sep s.data).map String.mk

/-! ### src/utils.ts -/

/-- Function `padZero` of src/utils.ts: a value whose numeric coercion is
`NaN` passes through unchanged; a numeric value `>= 10` is returned
unchanged (not stringified); otherwise a single `"0"` is prepended to the
template rendering of the original input. -/
def padZero (v : JSVal) : JSVal :=
  match jsToNum v with
  | none => v
  | some n => if 10 ≤ n then v else .str ("0" ++ jsValToString v)

/-! ### src/constants.ts -/

/-- Relative-time phrase set of a language pack. -/
structure TimeAgo where
  justNow : String
  minute : Int → String
  hour : Int → String
  day : Int → String

/-- Language pack fields used by the display operations. -/
structure LangConstants where
  MONTHS : List String
  MONTHS_ABBR : List String
  timeAgo : TimeAgo

/-- English constants of src/constants.ts. -/
def en : LangConstants :=
  { MONTHS := ["January", "February", "March", "April", "May", "June", "July",
      "August", "September", "October", "November", "December"]
    MONTHS_ABBR := ["Jan", "Feb", "Mar", "Apr", "May", "Jun", "Jul", "Aug",
      "Sep", "Oct", "Nov", "Dec"]
    timeAgo :=
      { justNow := "Just now"
        minute := fun min => toString min ++ " minute" ++ (if 1 < min then "s" else "") ++ " ago"
        hour := fun hours => toString hours ++ " hour" ++ (if 1 < hours then "s" else "") ++ " ago"
        day := fun days => toString days ++ " day" ++ (if 1 < days then "s" else "") ++ " ago" } }

/-- Thai constants of src/constants.ts. -/
def th : LangConstants :=
  { MONTHS := ["มกราคม", "กุมภาพันธ์", "มีนาคม", "เมษายน", "พฤษภาคม", "มิถุนายน",
      "กรกฎาคม", "สิงหาคม", "กันยายน", "ตุลาคม", "พฤศจิกายน", "ธันวาคม"]
    MONTHS_ABBR := ["ม.ค.", "ก.พ.", "มี.ค.", "เม.ย.", "พ.ค.", "มิ.ย.", "ก.ค.",
      "ส.ค.", "ก.ย.", "ต.ค.", "พ.ย.", "ธ.ค."]
    timeAgo :=
      { justNow := "เมื่อสักครู่"
        minute := fun min => toString min ++ " นาทีที่แล้ว"
        hour := fun hours => toString hours ++ " ชั่วโมงที่แล้ว"
        day := fun days => toString days ++ " วันที่ผ่านมา" } }

/-! ### src/types.ts and src/error.ts -/

/-- Record `Time` of src/types.ts: nullable hour and minute. -/
structure Time where
  hour : Option Int
  minute : Option Int
deriving DecidableEq

/-- Supported languages. -/
inductive Lang where
  | en
  | th
deriving DecidableEq

/-- Error class `FormatError` of src/error.ts; its message is assembled by
the constructor. -/
structure FormatError where
  message : String
deriving DecidableEq

/-- Constructor of `FormatError`: message `"Format error in <fn>:: <msg>"`. -/
def FormatError.make (msg fn : String) : FormatError :=
  { message := "Format error in " ++ fn ++ ":: " ++ msg }

/-- Partial `DateHelperConfig`: absent fields are `none`. -/
structure DateHelperConfig where
  lang : Option Lang := none
  isUTC : Option Bool := none
  useShortText : Option Bool := none
  useBD : Option Bool := none
  use12HourFormat : Option Bool := none
  showSeconds : Option Bool := none

/-! ### The DateHelper class (src/index.ts) -/

/-- Engine instance: the backing instant (epoch milliseconds) together with
the display-configuration fields of the `DateHelper` class. -/
structure DateHelper where
  ms : Int
  defaultLang : Lang := .en
  useShortText : Bool := false
  useBD : Bool := false
  use12HourFormat : Bool := false
  showSeconds : Bool := false
deriving DecidableEq

/-- Tail of the `DateHelper` constructor: the optional UTC shift (the
host's `getTimezoneOffset()` is `-tz` minutes, and the source subtracts
it, adding `tz`) followed by the copying of configuration fields. -/
def applyConfig (tz ms : Int) (c : DateHelperConfig) : DateHelper :=
  { ms := if c.isUTC = some true then ms + tz else ms
    defaultLang := c.lang.getD .en
    useShortText := c.useShortText.getD false
    useBD := c.useBD.getD false
    use12HourFormat := c.use12HourFormat.getD false
    showSeconds := c.showSeconds.getD false }

/-- The `DateHelper` constructor (src/index.ts:354): `nowMs` is the host
wall clock, `parseDate` the host's general date-string parser.  An absent
input uses the clock; a numeric input is a millisecond timestamp; a string
input is first coerced numerically and handed to `parseDate` only when
that coercion is `NaN`; it throws when the parse also fails. -/
def DateHelper.create (tz nowMs : Int) (parseDate : String → Option Int)
    (input : Option JSVal) (config : DateHelperConfig) : Except String DateHelper :=
  match input with
  | none => .ok (applyConfig tz nowMs config)
  | some (.num n) => .ok (applyConfig tz n config)
  | some (.str s) =>
    match jsStringToNum s with
    | some ts => .ok (applyConfig tz ts config)
    | none =>
      match parseDate s with
      | some parsed => .ok (applyConfig tz parsed config)
      | none => .error "Invalid date string or number provided."

/-- Method `getLanguageConstants`. -/
def DateHelper.getLanguageConstants (e : DateHelper) : LangConstants :=
  match e.defaultLang with
  | .en => en
  | .th => th

/-- Method `toDateTuple`: local year, local month plus one (the host's
`getMonth()` is 0-based; `localCivil` is already 1-based), local day. -/
def DateHelper.toDateTuple (tz : Int) (e : DateHelper) : Int × Int × Int :=
  let c := localCivil tz e.ms
  (c.year, c.month, c.day)

/-- Method `getBDYear`: Gregorian local year plus 543. -/
def DateHelper.getBDYear (tz : Int) (e : DateHelper) : Int :=
  (localCivil tz e.ms).year + 543

/-- Method `getADYear`. -/
def DateHelper.getADYear (tz : Int) (e : DateHelper) : Int :=
  (localCivil tz e.ms).year

/-- Method `getMonthName`: 0-based month index into the localized month
table (an out-of-range host index would render `undefined`). -/
def DateHelper.getMonthName (tz : Int) (e : DateHelper) : String :=
  let month := (localCivil tz e.ms).month - 1
  let c := e.getLanguageConstants
  if e.useShortText then c.MONTHS_ABBR.getD month.toNat "undefined"
  else c.MONTHS.getD month.toNat "undefined"

/-- Method `getDisplayDate`: zero-padded day, month name, era year (the
year modulo 100 under `useShortText`), joined by single spaces. -/
def DateHelper.getDisplayDate (tz : Int) (e : DateHelper) : String :=
  let date := (localCivil tz e.ms).day
  let year := if e.useBD then e.getBDYear tz else e.getADYear tz
  let monthString := e.getMonthName tz
  let yearString := if e.useShortText then year % 100 else year
  jsValToString (padZero (.num date)) ++ " " ++ monthString ++ " " ++ toString yearString

/-- Method `getDaysCountInMonth` (src/index.ts:474). -/
def DateHelper.getDaysCountInMonth (tz : Int) (e : DateHelper) : Int :=
  let t := e.toDateTuple tz
  let year := t.1
  let month := t.2.1
  if month = 2 then
    if (year % 4 = 0 ∧ year % 100 ≠ 0) ∨ year % 400 = 0 then 29 else 28
  else if month = 4 ∨ month = 6 ∨ month = 9 ∨ month = 11 then 30 else 31

/-- Host `Math.round` of the exact rational `p / q` for `q > 0`: rounding
half toward positive infinity. -/
def mathRoundDiv (p q : Int) : Int := (2 * p + q) / (2 * q)

/-- Static `deltaMinutes` (src/index.ts:62): millisecond difference
`d1 - d2` divided by 60000 and rounded by `Math.round`. -/
def DateHelper.deltaMinutes (d1 d2 : DateHelper) : Int :=
  mathRoundDiv (d1.ms - d2.ms) 60000

/-- Method `getTimeRelativeToNow` (src/index.ts:503): `nowMs` is the host
wall clock read by the method's own `new DateHelper()`. -/
def DateHelper.getTimeRelativeToNow (tz nowMs : Int) (e : DateHelper) : String :=
  let now : DateHelper := { ms := nowMs }
  let deltaMinutes := DateHelper.deltaMinutes now e
  let tbl := e.getLanguageConstants
  if deltaMinutes < 1 then tbl.timeAgo.justNow
  else if deltaMinutes < 60 then tbl.timeAgo.minute deltaMinutes
  else if deltaMinutes < 1440 then tbl.timeAgo.hour (deltaMinutes / 60)
  else if deltaMinutes < 43200 then tbl.timeAgo.day (deltaMinutes / 1440)
  else e.getDisplayDate tz

/-- Method `getDisplayTime` (src/index.ts:563). -/
def DateHelper.getDisplayTime (tz : Int) (e : DateHelper) : String :=
  let c := localCivil tz e.ms
  let period := if 12 ≤ c.hour then "PM" else "AM"
  let hoursStr :=
    if e.use12HourFormat then
      jsValToString (padZero (.num (if c.hour % 12 = 0 then 12 else c.hour % 12)))
    else jsValToString (padZero (.num c.hour))
  let minutesStr := jsValToString (padZero (.num c.minute))
  let base := hoursStr ++ ":" ++ minutesStr
  let withSec :=
    if e.showSeconds then base ++ ":" ++ jsValToString (padZero (.num c.second)) else base
  if e.use12HourFormat then withSec ++ " " ++ period else withSec

/-- Static `fromDateTupleAndTime` (src/index.ts:76): a local-time
`new Date(y, m - 1, d, hour ?? 0, minute ?? 0)` rewrapped through the
numeric branch of the constructor with no configuration. -/
def DateHelper.fromDateTupleAndTime (tz : Int) (tuple : Int × Int × Int)
    (time : Option Time) : DateHelper :=
  { ms := newDateLocal tz tuple.1 (tuple.2.1 - 1) tuple.2.2
      ((time.bind Time.hour).getD 0) ((time.bind Time.minute).getD 0) }

/-- Static `timeStringToTime` (src/index.ts:104).  The inner range errors
of the source are caught by its own try/catch and re-thrown as the single
outer `FormatError`, so every failure surfaces with that message. -/
def timeStringToTime (timeString : String) : Except FormatError Time :=
  let parts := jsSplit timeString ':'
  let outerErr := FormatError.make ("Invalid time format: " ++ timeString) "timeStringToTime"
  match jsOptToNum parts[0]?, jsOptToNum parts[1]? with
  | some hh, some mm =>
    if hh < 0 ∨ 23 < hh then .error outerErr
    else if mm < 0 ∨ 59 < mm then .error outerErr
    else .ok { hour := some hh, minute := some mm }
  | _, _ => .error outerErr

/-- Static `isTimePastForDate` (src/index.ts:244), against an explicit
store of host date objects (a list of ms values addressed by allocation
index) so the aliasing is visible: the method reads `date.toMs()`,
allocates a fresh date for the `cmp` instance, mutates that fresh object
through `cmp.getDate().setHours(...)`, and compares with the clock.
Returns the comparison result and the post-call store. -/
def isTimePastForDate (tz nowMs : Int) (time : Time) (dRef : Nat)
    (st : List Int) : Bool × List Int :=
  let ms := st.getD dRef 0
  let st1 := st ++ [ms]
  let r1 := st.length
  let st2 := st1.set r1
    (setHoursLocalMs tz (st1.getD r1 0) (time.hour.getD 0) (time.minute.getD 0) 0 0)
  (decide (st2.getD r1 0 < nowMs), st2)

/-- Days in month `m` of year `y` under the full Gregorian leap rule: the
validity notion for civil triples used by the round-trip property. -/
def daysInMonth (y m : Int) : Int :=
  if m = 2 then (if y % 4 = 0 ∧ (y % 100 ≠ 0 ∨ y % 400 = 0) then 29 else 28)
  else if m = 4 ∨ m = 6 ∨ m = 9 ∨ m = 11 then 30 else 31

/-! ### Calendar lemmas: the civil decomposition inverts the civil
composition on valid dates -/

theorem yearStartInEra_mono {i j : Int} (h : i ≤ j) :
    yearStartInEra i ≤ yearStartInEra j := by
  unfold yearStartInEra
  omega

theorem yoeSearch_spec (doe : Int) (n k : Nat) (hk : k ≤ n)
    (h1 : yearStartInEra (k : Int) ≤ doe)
    (hmax : ∀ j : Nat, j ≤ n → yearStartInEra (j : Int) ≤ doe → j ≤ k) :
    yoeSearch doe n = k := by
  induction n with
  | zero =>
    have hk0 : k = 0 := Nat.le_zero.mp hk
    subst hk0
    rfl
  | succ n ih =>
    have hcast : ((n + 1 : Nat) : Int) = (n : Int) + 1 := by push_cast; ring
    rw [yoeSearch]
    split
    next h =>
      have h2 := hmax (n + 1) (Nat.le_refl _) (by rw [hcast]; exact h)
      omega
    next h =>
      have hk2 : k ≤ n := by
        rcases Nat.lt_or_ge k (n + 1) with h2 | h2
        · omega
        · exfalso
          have hk3 : k = n + 1 := by omega
          subst hk3
          rw [hcast] at h1
          exact h h1
      exact ih hk2 (fun j hj hyj => hmax j (by omega) hyj)

theorem yoeSearch_eq_of (doe yoe : Int) (h0 : 0 ≤ yoe) (h399 : yoe ≤ 399)
    (h1 : yearStartInEra yoe ≤ doe)
    (h2 : yoe ≤ 398 → doe < yearStartInEra (yoe + 1)) :
    ((yoeSearch doe 399 : Nat) : Int) = yoe := by
  have hk : ((yoe.toNat : Nat) : Int) = yoe := Int.toNat_of_nonneg h0
  have hs : yoeSearch doe 399 = yoe.toNat := by
    apply yoeSearch_spec doe 399 yoe.toNat (by omega)
    · rw [hk]; exact h1
    · intro j hj hyj
      by_contra hlt
      have hj1 : yoe + 1 ≤ (j : Int) := by omega
      have hyoe398 : yoe ≤ 398 := by omega
      have hmono := yearStartInEra_mono hj1
      have hbound := h2 hyoe398
      omega
  rw [hs, hk]

theorem civilFromDays_era (era yoe doy : Int)
    (h0 : 0 ≤ yoe) (h1 : yoe ≤ 399) (h2 : 0 ≤ doy) (h3 : doy ≤ 365)
    (h4 : yoe ≤ 398 → yearStartInEra yoe + doy < yearStartInEra (yoe + 1)) :
    civilFromDays (era * 146097 + (yearStartInEra yoe + doy) - 719468) =
      (yoe + era * 400 +
        (if (if (5 * doy + 2) / 153 < 10 then (5 * doy + 2) / 153 + 3
             else (5 * doy + 2) / 153 - 9) ≤ 2 then 1 else 0),
       (if (5 * doy + 2) / 153 < 10 then (5 * doy + 2) / 153 + 3
        else (5 * doy + 2) / 153 - 9),
       doy - (153 * ((5 * doy + 2) / 153) + 2) / 5 + 1) := by
  have hysb : 0 ≤ yearStartInEra yoe ∧ yearStartInEra yoe + doy ≤ 146096 := by
    unfold yearStartInEra
    omega
  have e1 : era * 146097 + (yearStartInEra yoe + doy) - 719468 + 719468
      = era * 146097 + (yearStartInEra yoe + doy) := by ring
  have e2 : (era * 146097 + (yearStartInEra yoe + doy)) / 146097 = era := by omega
  have e3 : era * 146097 + (yearStartInEra yoe + doy) - era * 146097
      = yearStartInEra yoe + doy := by ring
  have e4 : ((yoeSearch (yearStartInEra yoe + doy) 399 : Nat) : Int) = yoe :=
    yoeSearch_eq_of _ yoe h0 h1 (by omega) h4
  have e5 : yearStartInEra yoe + doy - yearStartInEra yoe = doy := by ring
  simp only [civilFromDays]
  rw [e1, e2, e3, e4, e5]

theorem monthRecovery (m d : Int) (hm1 : 1 ≤ m) (hm2 : m ≤ 12) (hd1 : 1 ≤ d)
    (h31 : d ≤ 31) (h30 : m = 4 ∨ m = 6 ∨ m = 9 ∨ m = 11 → d ≤ 30)
    (hfeb : m = 2 → d ≤ 29) :
    (5 * ((153 * ((m + 9) % 12) + 2) / 5 + d - 1) + 2) / 153 = (m + 9) % 12 := by
  interval_cases m <;> omega

theorem monthBack (m : Int) (hm1 : 1 ≤ m) (hm2 : m ≤ 12) :
    (if (m + 9) % 12 < 10 then (m + 9) % 12 + 3 else (m + 9) % 12 - 9) = m := by
  split_ifs <;> omega

theorem civilFromDays_daysFromCivil (y m d : Int)
    (hm1 : 1 ≤ m) (hm2 : m ≤ 12) (hd1 : 1 ≤ d) (hd2 : d ≤ daysInMonth y m) :
    civilFromDays (daysFromCivil y m d) = (y, m, d) := by
  have h31 : d ≤ 31 := by
    unfold daysInMonth at hd2
    split_ifs at hd2 <;> omega
  have h30 : m = 4 ∨ m = 6 ∨ m = 9 ∨ m = 11 → d ≤ 30 := by
    intro h
    have hne : ¬ m = 2 := by omega
    unfold daysInMonth at hd2
    rw [if_neg hne, if_pos h] at hd2
    exact hd2
  have hfeb : m = 2 → d ≤ 29 := by
    intro h
    unfold daysInMonth at hd2
    rw [if_pos h] at hd2
    split_ifs at hd2 <;> omega
  have hleap : m = 2 → d = 29 → y % 4 = 0 ∧ (y % 100 ≠ 0 ∨ y % 400 = 0) := by
    intro h1 h2
    unfold daysInMonth at hd2
    rw [if_pos h1] at hd2
    by_contra hno
    rw [if_neg hno] at hd2
    omega
  clear hd2
  have hmst : (m = 1 → (153 * ((m + 9) % 12) + 2) / 5 = 306) ∧
      (m = 2 → (153 * ((m + 9) % 12) + 2) / 5 = 337) ∧
      (3 ≤ m → (153 * ((m + 9) % 12) + 2) / 5 ≤ 275) := by
    refine ⟨?_, ?_, ?_⟩
    · intro h
      subst h
      decide
    · intro h
      subst h
      decide
    · intro h
      omega
  have h4 : ((if m ≤ 2 then y - 1 else y) - (if m ≤ 2 then y - 1 else y) / 400 * 400) ≤ 398 →
      yearStartInEra ((if m ≤ 2 then y - 1 else y) - (if m ≤ 2 then y - 1 else y) / 400 * 400) +
        ((153 * ((m + 9) % 12) + 2) / 5 + d - 1) <
      yearStartInEra (((if m ≤ 2 then y - 1 else y) -
        (if m ≤ 2 then y - 1 else y) / 400 * 400) + 1) := by
    intro hle
    unfold yearStartInEra
    by_cases hm3 : m ≤ 2
    · by_cases h29 : m = 2 ∧ d = 29
      · obtain ⟨hy4, hyor⟩ := hleap h29.1 h29.2
        rcases hyor with hy | hy <;>
          (simp only [if_pos hm3] at hle ⊢
           have hstA := hmst.1
           have hstB := hmst.2.1
           clear h30 hfeb hleap h31 hmst
           omega)
      · have h28 : m = 2 → d ≤ 28 := by
          intro hm2e
          have hle29 := hfeb hm2e
          by_contra hgt
          exact h29 ⟨hm2e, by omega⟩
        simp only [if_pos hm3] at hle ⊢
        have hstA := hmst.1
        have hstB := hmst.2.1
        clear h30 hleap hfeb h29 hmst
        omega
    · simp only [if_neg hm3] at hle ⊢
      have hst := hmst.2.2 (by omega)
      clear h30 hfeb hleap hmst
      omega
  have hdf : daysFromCivil y m d =
      (if m ≤ 2 then y - 1 else y) / 400 * 146097 +
        (yearStartInEra ((if m ≤ 2 then y - 1 else y) -
            (if m ≤ 2 then y - 1 else y) / 400 * 400) +
          ((153 * ((m + 9) % 12) + 2) / 5 + d - 1)) - 719468 := rfl
  have key := civilFromDays_era
    ((if m ≤ 2 then y - 1 else y) / 400)
    ((if m ≤ 2 then y - 1 else y) - (if m ≤ 2 then y - 1 else y) / 400 * 400)
    ((153 * ((m + 9) % 12) + 2) / 5 + d - 1)
    (by omega) (by omega) (by omega)
    (by
      clear h4 hdf hleap
      by_cases hm3 : m ≤ 2
      · have hstA := hmst.1
        have hstB := hmst.2.1
        have hd29 : m = 2 → d ≤ 29 := hfeb
        clear h30 hfeb hmst
        omega
      · have hst := hmst.2.2 (by omega)
        clear h30 hfeb hmst
        omega)
    h4
  have hmprec := monthRecovery m d hm1 hm2 hd1 h31 h30 hfeb
  rw [hdf, key, hmprec, monthBack m hm1 hm2]
  clear h30 h31 hfeb hleap h4 hdf key hmprec hmst
  by_cases hm3 : m ≤ 2
  · simp only [if_pos hm3, Prod.mk.injEq]
    refine ⟨by omega, trivial, by omega⟩
  · simp only [if_neg hm3, Prod.mk.injEq]
    refine ⟨by omega, trivial, by omega⟩

theorem daysFromCivil_add_days (y m d : Int) :
    daysFromCivil y m 1 + d - 1 = daysFromCivil y m d := by
  simp only [daysFromCivil]
  ring

theorem newDateLocal_valid (tz y m d h mi : Int) (hy : ¬ (0 ≤ y ∧ y ≤ 99))
    (hm1 : 1 ≤ m) (hm2 : m ≤ 12) :
    newDateLocal tz y (m - 1) d h mi
      = daysFromCivil y m d * 86400000 + h * 3600000 + mi * 60000 - tz := by
  unfold newDateLocal makeDay
  rw [if_neg hy]
  rw [show (m - 1) / 12 = 0 from by omega, show (m - 1) % 12 + 1 = m from by omega]
  rw [show y + 0 = y from by ring]
  rw [← daysFromCivil_add_days y m d]

theorem localCivil_day_time (tz D r : Int) (hr0 : 0 ≤ r) (hr1 : r < 86400000) :
    localCivil tz (D * 86400000 + r - tz) =
      { year := (civilFromDays D).1, month := (civilFromDays D).2.1,
        day := (civilFromDays D).2.2,
        hour := r / 3600000, minute := (r / 60000) % 60, second := (r / 1000) % 60 } := by
  simp only [localCivil]
  rw [show (D * 86400000 + r - tz + tz) / 86400000 = D from by omega]
  simp only [CivilDT.mk.injEq]
  refine ⟨trivial, trivial, trivial, by omega, by omega, by omega⟩

/-! ### Claim theorems -/

/-- C4 (amended): for every valid civil triple `(y, m, d)` with `m` in
`1..12`, `d` in `1..daysInMonth y m`, and year outside the host
constructor's legacy two-digit band `0..99`, building an Engine through
`fromDateTupleAndTime [y, m, d]` and reading `toDateTuple()` gives back
exactly `[y, m, d]`, in every time zone. -/
theorem C4_fromTuple_toTuple_amended (tz y m d : Int) (hy : y < 0 ∨ 100 ≤ y)
    (hm1 : 1 ≤ m) (hm2 : m ≤ 12) (hd1 : 1 ≤ d) (hd2 : d ≤ daysInMonth y m) :
    DateHelper.toDateTuple tz (DateHelper.fromDateTupleAndTime tz (y, m, d) none) = (y, m, d) := by
  have h0 : DateHelper.fromDateTupleAndTime tz (y, m, d) none
      = { ms := newDateLocal tz y (m - 1) d 0 0 } := rfl
  rw [h0, newDateLocal_valid tz y m d 0 0 (by omega) hm1 hm2]
  rw [show daysFromCivil y m d * 86400000 + 0 * 3600000 + 0 * 60000 - tz
      = daysFromCivil y m d * 86400000 + 0 - tz from by ring]
  simp only [DateHelper.toDateTuple]
  rw [localCivil_day_time tz (daysFromCivil y m d) 0 (by omega) (by omega)]
  rw [civilFromDays_daysFromCivil y m d hm1 hm2 hd1 hd2]

/-- C4 (counterexample): the claim as stated fails for two-digit years:
the valid triple `(50, 1, 1)` reads back as `(1950, 1, 1)` because the
host `new Date(y, ...)` constructor maps years `0..99` to `1900 + y`. -/
theorem C4_counterexample :
    (1 : Int) ≤ 1 ∧ (1 : Int) ≤ 12 ∧ (1 : Int) ≤ daysInMonth 50 1 ∧
    DateHelper.toDateTuple 0 (DateHelper.fromDateTupleAndTime 0 (50, 1, 1) none)
      = (1950, 1, 1) ∧
    DateHelper.toDateTuple 0 (DateHelper.fromDateTupleAndTime 0 (50, 1, 1) none)
      ≠ (50, 1, 1) := by
  decide

/-- C4 (witness): the amended round trip evaluated at the leap date
`2024-02-29` in zone 0. -/
theorem C4_witness :
    DateHelper.toDateTuple 0 (DateHelper.fromDateTupleAndTime 0 (2024, 2, 29) none)
      = (2024, 2, 29) :=
  C4_fromTuple_toTuple_amended 0 2024 2 29 (by decide) (by decide) (by decide)
    (by decide) (by decide)

/-- C5 (counterexample): `deltaMinutes` is not antisymmetric at exact
half-minute differences: for instants 30000 ms apart, `Math.round` gives
`1` one way and `0` the other (half rounds toward positive infinity). -/
theorem C5_counterexample :
    DateHelper.deltaMinutes { ms := 30000 } { ms := 0 } = 1 ∧
    DateHelper.deltaMinutes { ms := 0 } { ms := 30000 } = 0 ∧
    ¬ (DateHelper.deltaMinutes { ms := 30000 } { ms := 0 }
        = - DateHelper.deltaMinutes { ms := 0 } { ms := 30000 }) := by
  decide

/-- C5 (amended): `deltaMinutes` rounds the millisecond difference
`a - b` to a nearest whole minute (the rounded value is within 30000 ms
of the difference), `deltaMinutes(now, now)` is 0, and
`deltaMinutes(a, b) = -deltaMinutes(b, a)` holds whenever the difference
is not an exact half-minute remainder (where half-up rounding breaks the
symmetry). -/
theorem C5_deltaMinutes_amended (a b : DateHelper)
    (h : (a.ms - b.ms) % 60000 ≠ 30000) :
    DateHelper.deltaMinutes a a = 0 ∧
    -30000 ≤ (a.ms - b.ms) - 60000 * DateHelper.deltaMinutes a b ∧
    (a.ms - b.ms) - 60000 * DateHelper.deltaMinutes a b ≤ 30000 ∧
    DateHelper.deltaMinutes a b = - DateHelper.deltaMinutes b a := by
  unfold DateHelper.deltaMinutes mathRoundDiv
  omega

/-- C5 (witness): the amended statement evaluated at instants 120000 ms
apart. -/
theorem C5_witness :
    ((120000 : Int) - 0) % 60000 ≠ 30000 ∧
    (DateHelper.deltaMinutes { ms := 120000 } { ms := 120000 } = 0 ∧
     -30000 ≤ ((120000 : Int) - 0)
        - 60000 * DateHelper.deltaMinutes { ms := 120000 } { ms := 0 } ∧
     ((120000 : Int) - 0)
        - 60000 * DateHelper.deltaMinutes { ms := 120000 } { ms := 0 } ≤ 30000 ∧
     DateHelper.deltaMinutes { ms := 120000 } { ms := 0 }
        = - DateHelper.deltaMinutes { ms := 0 } { ms := 120000 }) :=
  ⟨by decide, C5_deltaMinutes_amended { ms := 120000 } { ms := 0 } (by decide)⟩

/-- C7 (counterexample): `padZero` pads the numeric value `-1` (which is
outside `[0, 9]`) to the string `"0-1"`, so padding does not happen
exactly on `[0, 9]`. -/
theorem C7_counterexample :
    padZero (.num (-1)) = JSVal.str "0-1" ∧ ¬ (0 ≤ (-1 : Int) ∧ (-1 : Int) ≤ 9) := by
  decide

/-- C7 (amended): `padZero` prepends a single `"0"` to the rendering of
the input exactly when its numeric coercion succeeds with value below 10
(including negative values); any other input — a value of 10 or more, or
a non-numeric string — is returned unchanged (not stringified). -/
theorem C7_padZero_amended (v : JSVal) :
    match jsToNum v with
    | none => padZero v = v
    | some n =>
        if n < 10 then padZero v = JSVal.str ("0" ++ jsValToString v)
        else padZero v = v := by
  unfold padZero
  cases h : jsToNum v
  · simp
  · next n =>
    dsimp only
    split_ifs <;> first | rfl | omega

/-- C1: for an Engine whose backing instant reads locally as
2024-03-01T00:00:00, `getDisplayDate()` renders "01 March 2024" under the
default configuration, "01 March 2567" with `useBD` (Buddhist Era year is
the Gregorian year plus 543), and "01 มีนาคม 2567" with Thai language and
`useBD`, in every time zone. -/
theorem C1_getDisplayDate (tz ms : Int)
    (h : localCivil tz ms =
      { year := 2024, month := 3, day := 1, hour := 0, minute := 0, second := 0 }) :
    DateHelper.getDisplayDate tz { ms := ms } = "01 March 2024" ∧
    DateHelper.getDisplayDate tz { ms := ms, useBD := true } = "01 March 2567" ∧
    DateHelper.getDisplayDate tz { ms := ms, defaultLang := .th, useBD := true }
      = "01 มีนาคม 2567" := by
  refine ⟨?_, ?_, ?_⟩ <;>
    (simp only [DateHelper.getDisplayDate, DateHelper.getADYear, DateHelper.getBDYear,
      DateHelper.getMonthName, DateHelper.getLanguageConstants, h]
     decide)

/-- C1 (witness): the display claims evaluated at the concrete UTC
instant 1709251200000 (2024-03-01T00:00:00) in zone 0. -/
theorem C1_witness :
    localCivil 0 1709251200000 =
      { year := 2024, month := 3, day := 1, hour := 0, minute := 0, second := 0 } ∧
    (DateHelper.getDisplayDate 0 { ms := 1709251200000 } = "01 March 2024" ∧
     DateHelper.getDisplayDate 0 { ms := 1709251200000, useBD := true } = "01 March 2567" ∧
     DateHelper.getDisplayDate 0 { ms := 1709251200000, defaultLang := .th, useBD := true }
       = "01 มีนาคม 2567") :=
  ⟨by decide, C1_getDisplayDate 0 1709251200000 (by decide)⟩

/-- C2: `getDaysCountInMonth()` of every Engine instance follows the full
Gregorian rule on the instance's local year and month — 29 for February
exactly when the year is divisible by 4 and (not divisible by 100 or
divisible by 400), 28 for other Februaries, 30 for months 4, 6, 9, 11 and
31 otherwise — and concretely 2000 → 29, 1900 → 28, 2024 → 29,
2023 → 28. -/
theorem C2_getDaysCountInMonth (tz : Int) (e : DateHelper) :
    (DateHelper.getDaysCountInMonth tz e =
      (if (DateHelper.toDateTuple tz e).2.1 = 2 then
        (if 4 ∣ (DateHelper.toDateTuple tz e).1 ∧
            (¬ (100 ∣ (DateHelper.toDateTuple tz e).1) ∨
              400 ∣ (DateHelper.toDateTuple tz e).1)
          then 29 else 28)
       else if (DateHelper.toDateTuple tz e).2.1 = 4 ∨ (DateHelper.toDateTuple tz e).2.1 = 6 ∨
          (DateHelper.toDateTuple tz e).2.1 = 9 ∨ (DateHelper.toDateTuple tz e).2.1 = 11
        then 30 else 31)) ∧
    DateHelper.getDaysCountInMonth 0 (DateHelper.fromDateTupleAndTime 0 (2000, 2, 1) none)
      = 29 ∧
    DateHelper.getDaysCountInMonth 0 (DateHelper.fromDateTupleAndTime 0 (1900, 2, 1) none)
      = 28 ∧
    DateHelper.getDaysCountInMonth 0 (DateHelper.fromDateTupleAndTime 0 (2024, 2, 1) none)
      = 29 ∧
    DateHelper.getDaysCountInMonth 0 (DateHelper.fromDateTupleAndTime 0 (2023, 2, 1) none)
      = 28 := by
  refine ⟨?_, by decide, by decide, by decide, by decide⟩
  simp only [DateHelper.getDaysCountInMonth]
  split_ifs <;> omega

/-- C3: `timeStringToTime` succeeds exactly when both leading
colon-separated segments coerce to numbers with the hour in `[0, 23]` and
the minute in `[0, 59]` (a missing or non-numeric segment coerces to
`NaN`); every success carries both fields populated; `"13:45"` parses to
hour 13, minute 45, while `"24:00"` and `"12:60"` fail (with a
`FormatError`, the function's only error type). -/
theorem C3_timeStringToTime (s : String) :
    ((∃ t, timeStringToTime s = .ok t) ↔
      ∃ hh mm : Int, jsOptToNum (jsSplit s ':')[0]? = some hh ∧
        jsOptToNum (jsSplit s ':')[1]? = some mm ∧
        0 ≤ hh ∧ hh ≤ 23 ∧ 0 ≤ mm ∧ mm ≤ 59) ∧
    ((timeStringToTime s).toOption.all fun t => t.hour.isSome && t.minute.isSome) = true ∧
    (timeStringToTime "13:45").toOption = some { hour := some 13, minute := some 45 } ∧
    (timeStringToTime "24:00").toOption = none ∧
    (timeStringToTime "12:60").toOption = none := by
  refine ⟨?_, ?_, by decide, by decide, by decide⟩
  · simp only [timeStringToTime]
    cases h0 : jsOptToNum (jsSplit s ':')[0]? with
    | none =>
      dsimp only
      constructor
      · rintro ⟨t, ht⟩
        exact absurd ht (by simp)
      · rintro ⟨hh, mm, e1, e2, h3, h4, h5, h6⟩
        exact absurd e1 (by simp)
    | some a =>
      cases h1 : jsOptToNum (jsSplit s ':')[1]? with
      | none =>
        dsimp only
        constructor
        · rintro ⟨t, ht⟩
          exact absurd ht (by simp)
        · rintro ⟨hh, mm, e1, e2, h3, h4, h5, h6⟩
          exact absurd e2 (by simp)
      | some b =>
        dsimp only
        split_ifs with hr1 hr2
        · constructor
          · rintro ⟨t, ht⟩
            exact absurd ht (by simp)
          · rintro ⟨hh, mm, e1, e2, h3, h4, h5, h6⟩
            injection e1 with e1
            injection e2 with e2
            subst e1
            subst e2
            exfalso
            omega
        · constructor
          · rintro ⟨t, ht⟩
            exact absurd ht (by simp)
          · rintro ⟨hh, mm, e1, e2, h3, h4, h5, h6⟩
            injection e1 with e1
            injection e2 with e2
            subst e1
            subst e2
            exfalso
            omega
        · constructor
          · rintro -
            exact ⟨a, b, rfl, rfl, by omega, by omega, by omega, by omega⟩
          · rintro -
            exact ⟨{ hour := some a, minute := some b }, rfl⟩
  · simp only [timeStringToTime]
    cases h0 : jsOptToNum (jsSplit s ':')[0]? with
    | none => rfl
    | some a =>
      cases h1 : jsOptToNum (jsSplit s ':')[1]? with
      | none => rfl
      | some b =>
        dsimp only
        split_ifs <;> rfl

/-- C6: `getTimeRelativeToNow()` selects the localized phrase from the
whole-minute delta (now minus this): the "just now" phrase below 1, the
minutes phrase below 60, the hours phrase with `⌊delta/60⌋` below 1440,
the days phrase with `⌊delta/1440⌋` below 43200, and `getDisplayDate()`
otherwise; at the boundaries (English defaults) delta 59 gives
"59 minutes ago", 60 gives "1 hour ago", 1439 gives "23 hours ago" and
1440 gives "1 day ago". -/
theorem C6_getTimeRelativeToNow (tz nowMs : Int) (e : DateHelper) :
    (DateHelper.getTimeRelativeToNow tz nowMs e =
      (let delta := DateHelper.deltaMinutes { ms := nowMs } e
       let tbl := e.getLanguageConstants
       if delta < 1 then tbl.timeAgo.justNow
       else if delta < 60 then tbl.timeAgo.minute delta
       else if delta < 1440 then tbl.timeAgo.hour (delta / 60)
       else if delta < 43200 then tbl.timeAgo.day (delta / 1440)
       else e.getDisplayDate tz)) ∧
    DateHelper.getTimeRelativeToNow 0 (59 * 60000) { ms := 0 } = "59 minutes ago" ∧
    DateHelper.getTimeRelativeToNow 0 (60 * 60000) { ms := 0 } = "1 hour ago" ∧
    DateHelper.getTimeRelativeToNow 0 (1439 * 60000) { ms := 0 } = "23 hours ago" ∧
    DateHelper.getTimeRelativeToNow 0 (1440 * 60000) { ms := 0 } = "1 day ago" :=
  ⟨rfl, by decide, by decide, by decide, by decide⟩

/-- C8: `getDisplayTime()` composes the hour, ":", and the zero-padded
minute, appends ":" plus zero-padded seconds exactly when `showSeconds`
is set, appends a space plus AM/PM exactly when `use12HourFormat` is set,
and in 12-hour mode uses `hour % 12` with 0 replaced by 12, so local
00:05 renders "12:05 AM" and local 12:05 renders "12:05 PM". -/
theorem C8_getDisplayTime (tz : Int) (e : DateHelper) :
    (DateHelper.getDisplayTime tz e =
      (if e.use12HourFormat then
          jsValToString (padZero (.num (if (localCivil tz e.ms).hour % 12 = 0 then 12
            else (localCivil tz e.ms).hour % 12)))
        else jsValToString (padZero (.num (localCivil tz e.ms).hour)))
        ++ ":" ++ jsValToString (padZero (.num (localCivil tz e.ms).minute))
        ++ (if e.showSeconds then
              ":" ++ jsValToString (padZero (.num (localCivil tz e.ms).second))
            else "")
        ++ (if e.use12HourFormat then
              " " ++ (if 12 ≤ (localCivil tz e.ms).hour then "PM" else "AM")
            else "")) ∧
    DateHelper.getDisplayTime 0 { ms := 5 * 60000, use12HourFormat := true } = "12:05 AM" ∧
    DateHelper.getDisplayTime 0 { ms := 12 * 3600000 + 5 * 60000, use12HourFormat := true }
      = "12:05 PM" := by
  refine ⟨?_, by decide, by decide⟩
  simp only [DateHelper.getDisplayTime]
  split_ifs <;> simp only [String.append_assoc, String.append_empty]

/-- C9: the Engine constructor coerces a non-null input to a number
first: a string whose coercion is not `NaN` is used directly as a
millisecond timestamp for any host parser whatsoever (for example
`"2024"` gives the instant 2024 ms); the host date parser is consulted
only when the coercion is `NaN`, and construction fails exactly when that
parse also fails. -/
theorem C9_create (tz nowMs : Int) (parseDate : String → Option Int)
    (config : DateHelperConfig) (s : String) :
    (match jsStringToNum s with
     | some n => DateHelper.create tz nowMs parseDate (some (.str s)) config
         = .ok (applyConfig tz n config)
     | none => DateHelper.create tz nowMs parseDate (some (.str s)) config
         = (match parseDate s with
            | some parsed => .ok (applyConfig tz parsed config)
            | none => .error "Invalid date string or number provided.")) ∧
    ((DateHelper.create tz nowMs parseDate (some (.str s)) config).toOption = none ↔
      jsStringToNum s = none ∧ parseDate s = none) ∧
    (∀ n : Int, DateHelper.create tz nowMs parseDate (some (.num n)) config
      = .ok (applyConfig tz n config)) ∧
    jsStringToNum "2024" = some 2024 ∧
    DateHelper.create tz nowMs parseDate (some (.str "2024")) config
      = .ok (applyConfig tz 2024 config) := by
  refine ⟨?_, ?_, fun n => rfl, by decide, ?_⟩
  · unfold DateHelper.create
    dsimp only
    cases h : jsStringToNum s <;> rfl
  · unfold DateHelper.create
    dsimp only
    cases h : jsStringToNum s with
    | none =>
      cases hp : parseDate s with
      | none => simp [Except.toOption]
      | some parsed => simp [Except.toOption]
    | some n => simp [Except.toOption]
  · unfold DateHelper.create
    dsimp only
    rw [show jsStringToNum "2024" = some 2024 from by decide]

/-- C10: `isTimePastForDate` builds its comparison moment on a freshly
allocated copy of the date argument's backing instant, so the argument's
stored instant (the value its `toMs()` reads) is unchanged by the call,
for every store in which the argument's reference is live. -/
theorem C10_framePreservation (tz nowMs : Int) (time : Time) (dRef : Nat) (st : List Int)
    (h : dRef < st.length) :
    (isTimePastForDate tz nowMs time dRef st).2.getD dRef 0 = st.getD dRef 0 := by
  unfold isTimePastForDate
  dsimp only
  rw [List.getD_eq_getElem?_getD, List.getD_eq_getElem?_getD]
  rw [List.getElem?_set_ne (by omega)]
  rw [List.getElem?_append_left h]

/-- C10 (witness): frame preservation evaluated on the one-element store
holding 77. -/
theorem C10_witness :
    0 < ([77] : List Int).length ∧
    (isTimePastForDate 5 123456 { hour := some 10, minute := some 30 } 0 [77]).2.getD 0 0
      = ([77] : List Int).getD 0 0 :=
  ⟨by decide,
   C10_framePreservation 5 123456 { hour := some 10, minute := some 30 } 0 [77] (by decide)⟩
